import Mathlib

/-!
Verification of the wire-schema and builder layer of `anthropic-rs`
(`src/anthropic/src/types.rs`), shallowly embedded in Lean 4.

Modelling conventions:
* JSON values are modelled at the level of `serde_json::Value`.  A
  `serde_json::Number` is internally an integer (`u64`/`i64`) or a float
  (`f64`); we keep the two constructors `int` and `float`.  Finite `f64`
  values serialize and deserialize exactly at this level, so they are
  modelled by the rational number they denote (an injection); no claim
  depends on floating-point arithmetic.
* Rust `i32` is modelled by `Int`, `usize` by `Nat` (no claim involves
  arithmetic, only carrying values through).
* JSON objects are association lists in emission order; a field lookup
  takes the first binding, as `serde` sees each field once for the
  payloads at issue.
* Fallible operations return `Except AnthropicError`.
-/

/-- Modelled from the spec: the error type of the crate lives in
`src/anthropic/src/error.rs`, which is not under `src/`.  The spec (section 7)
fixes the kinds relevant here: `ValidationError` (builder finalize with a
required field unset) and `SchemaError` (payload fails to match the expected
structure).  Each carries a human-readable message. -/
inductive AnthropicError where
  | validationError (msg : String)
  | schemaError (msg : String)
deriving DecidableEq, Repr

/-- Modelled from the spec: the fixed default model identifier constant
`DEFAULT_MODEL` is declared in the crate root (`src/anthropic/src/lib.rs`),
which is not under `src/`.  The spec (sections 4.1 and 8) fixes only that it
is a fixed constant, not its value. -/
def DEFAULT_MODEL : String := "claude-default-model"

/-- JSON values, at the level of `serde_json::Value`. -/
inductive Json where
  | null
  | bool (b : Bool)
  | int (n : Int)
  | float (q : Rat)
  | str (s : String)
  | arr (elems : List Json)
  | obj (fields : List (String × Json))

/-- First binding of `key` in a JSON object's field list. -/
def lookupField (fields : List (String × Json)) (key : String) : Option Json :=
  match fields with
  | [] => none
  | (k, v) :: rest => if k = key then some v else lookupField rest key

/-! ## Data model (from `types.rs`) -/

/-- From `types.rs` lines 132-136: token accounting attached to responses. -/
structure Usage where
  input_tokens : Int
  output_tokens : Int
deriving DecidableEq, Repr

/-- From `types.rs` lines 59-66: inline image payload.  The Rust fields
`source_type` and `media_type` are serialized under the keys `type` and
`media_type` (serde renames). -/
structure ImageSource where
  source_type : String
  media_type : String
  data : String
deriving DecidableEq, Repr

/-- From `types.rs` lines 49-57: one unit of message content.  `content_type`
is serialized under the key `type`; `text` and `source` carry
`skip_serializing_if = Option.isNone`. -/
structure ContentBlock where
  content_type : String
  text : Option String
  source : Option ImageSource
deriving DecidableEq, Repr

/-- From `types.rs` lines 29-40: one conversational turn.  `object_type` is
serialized under the key `type`; `stop_reason` and `stop_sequence` are
optional. -/
structure Message where
  id : String
  object_type : String
  role : String
  content : List ContentBlock
  model : String
  stop_reason : Option String
  stop_sequence : Option String
  usage : Usage
deriving DecidableEq, Repr

/-- From `types.rs` lines 42-47: the untagged union `Content`, a plain string
or a list of content blocks. -/
inductive Content where
  | text (s : String)
  | blocks (bs : List ContentBlock)
deriving DecidableEq, Repr

/-- From `types.rs` lines 68-79: the non-streaming response record.  Unlike
`Message`, its `stop_reason` field is a required `String`. -/
structure CreateMessageResponse where
  id : String
  object_type : String
  role : String
  content : List ContentBlock
  model : String
  stop_reason : String
  stop_sequence : Option String
  usage : Usage
deriving DecidableEq, Repr

/-- From `types.rs` lines 118-123: an incremental text delta. -/
structure ContentDelta where
  delta_type : String
  text : String
deriving DecidableEq, Repr

/-- From `types.rs` lines 125-130: an incremental message-level delta. -/
structure MessageDelta where
  stop_reason : Option String
  stop_sequence : Option String
  usage : Option Usage
deriving DecidableEq, Repr

/-- From `types.rs` lines 138-143: error payload of an `error` event. -/
structure ErrorData where
  error_type : String
  message : String
deriving DecidableEq, Repr

/-- From `types.rs` lines 81-116: the internally tagged streaming-event union
(`serde(tag = "type")`).  The renamed variants carry the snake_case tags; the
trailing `Unknown` variant carries no rename, so its serde tag is the literal
string `Unknown`. -/
inductive StreamEvent where
  | messageStart (message : Message)
  | contentBlockStart (index : Nat) (content_block : ContentBlock)
  | contentBlockDelta (index : Nat) (delta : ContentDelta)
  | contentBlockStop (index : Nat)
  | messageDelta (delta : MessageDelta)
  | messageStop
  | ping
  | error (error : ErrorData)
  | unknown
deriving DecidableEq, Repr

/-- From `types.rs` lines 177-182: why generation ended; `rename_all =
snake_case` gives the wire strings `max_tokens` and `stop_sequence`. -/
inductive StopReason where
  | maxTokens
  | stopSequence
deriving DecidableEq, Repr

/-- From `types.rs` lines 165-169: the legacy completion response. -/
structure CompleteResponse where
  completion : String
  stop_reason : Option StopReason
deriving DecidableEq, Repr

/-- From `types.rs` lines 11-27: one chat-completion request. -/
structure CreateMessageRequest where
  model : String
  messages : List Message
  system : Option String
  max_tokens : Int
  stop_sequences : Option (List String)
  stream : Bool
  temperature : Option Rat
  top_p : Option Rat
  top_k : Option Int
deriving DecidableEq, Repr

/-- From `types.rs` lines 145-163: one legacy completion request. -/
structure CompleteRequest where
  prompt : String
  model : String
  max_tokens_to_sample : Nat
  stop_sequences : Option (List String)
  stream : Bool
deriving DecidableEq, Repr

/-! ## Field decoding helpers (serde derive semantics)

A required field is an error when missing or of the wrong shape.  A field of
type `Option T` is implicitly defaulted by serde derive: a missing field and
an explicit `null` both decode to `none`; any other value must decode as `T`. -/

/-- Required `String` field. -/
def reqString (fields : List (String × Json)) (key : String) :
    Except AnthropicError String :=
  match lookupField fields key with
  | some (.str s) => .ok s
  | some _ => .error (.schemaError ("invalid type for field " ++ key))
  | none => .error (.schemaError ("missing field " ++ key))

/-- Required integer field (Rust `i32`); serde rejects floats here. -/
def reqInt (fields : List (String × Json)) (key : String) :
    Except AnthropicError Int :=
  match lookupField fields key with
  | some (.int n) => .ok n
  | some _ => .error (.schemaError ("invalid type for field " ++ key))
  | none => .error (.schemaError ("missing field " ++ key))

/-- Required non-negative integer field (Rust `usize`). -/
def reqNat (fields : List (String × Json)) (key : String) :
    Except AnthropicError Nat :=
  match lookupField fields key with
  | some (.int n) =>
      if n < 0 then .error (.schemaError ("invalid value for field " ++ key))
      else .ok n.toNat
  | some _ => .error (.schemaError ("invalid type for field " ++ key))
  | none => .error (.schemaError ("missing field " ++ key))

/-- Required `bool` field. -/
def reqBool (fields : List (String × Json)) (key : String) :
    Except AnthropicError Bool :=
  match lookupField fields key with
  | some (.bool b) => .ok b
  | some _ => .error (.schemaError ("invalid type for field " ++ key))
  | none => .error (.schemaError ("missing field " ++ key))

/-- Field of type `Option<String>`: missing or `null` decodes to `none`. -/
def optString (fields : List (String × Json)) (key : String) :
    Except AnthropicError (Option String) :=
  match lookupField fields key with
  | none => .ok none
  | some .null => .ok none
  | some (.str s) => .ok (some s)
  | some _ => .error (.schemaError ("invalid type for field " ++ key))

/-- Field of type `Option<i32>`. -/
def optInt (fields : List (String × Json)) (key : String) :
    Except AnthropicError (Option Int) :=
  match lookupField fields key with
  | none => .ok none
  | some .null => .ok none
  | some (.int n) => .ok (some n)
  | some _ => .error (.schemaError ("invalid type for field " ++ key))

/-- Field of type `Option<f64>`; deserializing an `f64` accepts JSON integers
as well (serde_json widens them). -/
def optFloat (fields : List (String × Json)) (key : String) :
    Except AnthropicError (Option Rat) :=
  match lookupField fields key with
  | none => .ok none
  | some .null => .ok none
  | some (.float q) => .ok (some q)
  | some (.int n) => .ok (some (n : Rat))
  | some _ => .error (.schemaError ("invalid type for field " ++ key))

/-- Decode a JSON array of strings (Rust `Vec<String>`). -/
def decodeStringList : List Json → Except AnthropicError (List String)
  | [] => .ok []
  | .str s :: rest => do
      let ss ← decodeStringList rest
      return s :: ss
  | _ :: _ => .error (.schemaError "invalid string list element")

/-- Field of type `Option<Vec<String>>`. -/
def optStringList (fields : List (String × Json)) (key : String) :
    Except AnthropicError (Option (List String)) :=
  match lookupField fields key with
  | none => .ok none
  | some .null => .ok none
  | some (.arr js) => do
      let ss ← decodeStringList js
      return some ss
  | some _ => .error (.schemaError ("invalid type for field " ++ key))

/-! ## Response decoders (from the `Deserialize` derives in `types.rs`) -/

/-- Decoder derived for `Usage` (lines 132-136). -/
def decodeUsage (j : Json) : Except AnthropicError Usage :=
  match j with
  | .obj fields => do
      let it ← reqInt fields "input_tokens"
      let ot ← reqInt fields "output_tokens"
      return { input_tokens := it, output_tokens := ot }
  | _ => .error (.schemaError "expected object for Usage")

/-- Field of type `Usage` (required). -/
def reqUsage (fields : List (String × Json)) (key : String) :
    Except AnthropicError Usage :=
  match lookupField fields key with
  | some j => decodeUsage j
  | none => .error (.schemaError ("missing field " ++ key))

/-- Field of type `Option<Usage>`. -/
def optUsage (fields : List (String × Json)) (key : String) :
    Except AnthropicError (Option Usage) :=
  match lookupField fields key with
  | none => .ok none
  | some .null => .ok none
  | some j => do
      let u ← decodeUsage j
      return some u

/-- Decoder derived for `ImageSource` (lines 59-66); `type` and `media_type`
are the renamed keys of `source_type` and `media_type`. -/
def decodeImageSource (j : Json) : Except AnthropicError ImageSource :=
  match j with
  | .obj fields => do
      let st ← reqString fields "type"
      let mt ← reqString fields "media_type"
      let d ← reqString fields "data"
      return { source_type := st, media_type := mt, data := d }
  | _ => .error (.schemaError "expected object for ImageSource")

/-- Field of type `Option<ImageSource>`. -/
def optImageSource (fields : List (String × Json)) (key : String) :
    Except AnthropicError (Option ImageSource) :=
  match lookupField fields key with
  | none => .ok none
  | some .null => .ok none
  | some j => do
      let s ← decodeImageSource j
      return some s

/-- Decoder derived for `ContentBlock` (lines 49-57): required `type` key,
optional `text` and `source`. -/
def decodeContentBlock (j : Json) : Except AnthropicError ContentBlock :=
  match j with
  | .obj fields => do
      let ct ← reqString fields "type"
      let t ← optString fields "text"
      let s ← optImageSource fields "source"
      return { content_type := ct, text := t, source := s }
  | _ => .error (.schemaError "expected object for ContentBlock")

/-- Decode a JSON array of content blocks (Rust `Vec<ContentBlock>`). -/
def decodeBlockList : List Json → Except AnthropicError (List ContentBlock)
  | [] => .ok []
  | j :: rest => do
      let b ← decodeContentBlock j
      let bs ← decodeBlockList rest
      return b :: bs

/-- Field of type `Vec<ContentBlock>` (required array). -/
def reqBlocks (fields : List (String × Json)) (key : String) :
    Except AnthropicError (List ContentBlock) :=
  match lookupField fields key with
  | some (.arr js) => decodeBlockList js
  | some _ => .error (.schemaError ("invalid type for field " ++ key))
  | none => .error (.schemaError ("missing field " ++ key))

/-- Decoder derived for the untagged enum `Content` (lines 42-47): serde
tries `Text(String)` first, then `Blocks(Vec<ContentBlock>)`; a JSON string
decodes as `text`, a JSON array of valid blocks as `blocks`, and any other
shape fails. -/
def decodeContent (j : Json) : Except AnthropicError Content :=
  match j with
  | .str s => .ok (.text s)
  | .arr js => do
      let bs ← decodeBlockList js
      return .blocks bs
  | _ => .error (.schemaError "data did not match any variant of Content")

/-- Decoder derived for `Message` (lines 29-40): `stop_reason` and
`stop_sequence` are `Option<String>`, so a missing field decodes to `none`. -/
def decodeMessage (j : Json) : Except AnthropicError Message :=
  match j with
  | .obj fields => do
      let id ← reqString fields "id"
      let ot ← reqString fields "type"
      let r ← reqString fields "role"
      let c ← reqBlocks fields "content"
      let m ← reqString fields "model"
      let sr ← optString fields "stop_reason"
      let ss ← optString fields "stop_sequence"
      let u ← reqUsage fields "usage"
      return { id := id, object_type := ot, role := r, content := c,
               model := m, stop_reason := sr, stop_sequence := ss, usage := u }
  | _ => .error (.schemaError "expected object for Message")

/-- Decoder derived for `CreateMessageResponse` (lines 68-79): here
`stop_reason` is a required `String`; a payload lacking it fails. -/
def decodeCreateMessageResponse (j : Json) :
    Except AnthropicError CreateMessageResponse :=
  match j with
  | .obj fields => do
      let id ← reqString fields "id"
      let ot ← reqString fields "type"
      let r ← reqString fields "role"
      let c ← reqBlocks fields "content"
      let m ← reqString fields "model"
      let sr ← reqString fields "stop_reason"
      let ss ← optString fields "stop_sequence"
      let u ← reqUsage fields "usage"
      return { id := id, object_type := ot, role := r, content := c,
               model := m, stop_reason := sr, stop_sequence := ss, usage := u }
  | _ => .error (.schemaError "expected object for CreateMessageResponse")

/-- Decoder derived for `ContentDelta` (lines 118-123). -/
def decodeContentDelta (j : Json) : Except AnthropicError ContentDelta :=
  match j with
  | .obj fields => do
      let dt ← reqString fields "type"
      let t ← reqString fields "text"
      return { delta_type := dt, text := t }
  | _ => .error (.schemaError "expected object for ContentDelta")

/-- Decoder derived for the struct `MessageDelta` (lines 125-130). -/
def decodeMessageDelta (j : Json) : Except AnthropicError MessageDelta :=
  match j with
  | .obj fields => do
      let sr ← optString fields "stop_reason"
      let ss ← optString fields "stop_sequence"
      let u ← optUsage fields "usage"
      return { stop_reason := sr, stop_sequence := ss, usage := u }
  | _ => .error (.schemaError "expected object for MessageDelta")

/-- Decoder derived for `ErrorData` (lines 138-143). -/
def decodeErrorData (j : Json) : Except AnthropicError ErrorData :=
  match j with
  | .obj fields => do
      let et ← reqString fields "type"
      let m ← reqString fields "message"
      return { error_type := et, message := m }
  | _ => .error (.schemaError "expected object for ErrorData")

/-- Decoder derived for `StopReason` (lines 177-182): `rename_all =
snake_case` matches the strings `max_tokens` and `stop_sequence`. -/
def decodeStopReason (j : Json) : Except AnthropicError StopReason :=
  match j with
  | .str "max_tokens" => .ok .maxTokens
  | .str "stop_sequence" => .ok .stopSequence
  | _ => .error (.schemaError "unknown variant of StopReason")

/-- Field of type `Option<StopReason>`. -/
def optStopReason (fields : List (String × Json)) (key : String) :
    Except AnthropicError (Option StopReason) :=
  match lookupField fields key with
  | none => .ok none
  | some .null => .ok none
  | some j => do
      let r ← decodeStopReason j
      return some r

/-- Decoder derived for `CompleteResponse` (lines 165-169): required
`completion` string, optional `stop_reason`. -/
def decodeCompleteResponse (j : Json) : Except AnthropicError CompleteResponse :=
  match j with
  | .obj fields => do
      let c ← reqString fields "completion"
      let sr ← optStopReason fields "stop_reason"
      return { completion := c, stop_reason := sr }
  | _ => .error (.schemaError "expected object for CompleteResponse")

/-- The eight renamed variant tags of `StreamEvent` (lines 84-110). -/
def recognizedTags : List String :=
  ["message_start", "content_block_start", "content_block_delta",
   "content_block_stop", "message_delta", "message_stop", "ping", "error"]

/-- Decoder derived for the internally tagged enum `StreamEvent`
(lines 81-116, `serde(tag = "type")`).  Serde reads the `type` field and
matches it against the variant tags; the `Unknown` variant carries no
`serde(rename)` and no `serde(other)` attribute, so its tag is the literal
string `Unknown`, and any string outside the nine variant tags is rejected
with an unknown-variant error.  A payload without a `type` field is rejected
with a missing-field error.  Struct variants ignore extra fields; the unit
variants `MessageStop` and `Ping` need only the tag. -/
def decodeStreamEvent (j : Json) : Except AnthropicError StreamEvent :=
  match j with
  | .obj fields =>
      match lookupField fields "type" with
      | none => .error (.schemaError "missing field type")
      | some (.str tag) =>
          if tag = "message_start" then do
            let m ← match lookupField fields "message" with
              | some mj => decodeMessage mj
              | none => .error (.schemaError "missing field message")
            return .messageStart m
          else if tag = "content_block_start" then do
            let i ← reqNat fields "index"
            let cb ← match lookupField fields "content_block" with
              | some bj => decodeContentBlock bj
              | none => .error (.schemaError "missing field content_block")
            return .contentBlockStart i cb
          else if tag = "content_block_delta" then do
            let i ← reqNat fields "index"
            let d ← match lookupField fields "delta" with
              | some dj => decodeContentDelta dj
              | none => .error (.schemaError "missing field delta")
            return .contentBlockDelta i d
          else if tag = "content_block_stop" then do
            let i ← reqNat fields "index"
            return .contentBlockStop i
          else if tag = "message_delta" then do
            let d ← match lookupField fields "delta" with
              | some dj => decodeMessageDelta dj
              | none => .error (.schemaError "missing field delta")
            return .messageDelta d
          else if tag = "message_stop" then .ok .messageStop
          else if tag = "ping" then .ok .ping
          else if tag = "error" then do
            let e ← match lookupField fields "error" with
              | some ej => decodeErrorData ej
              | none => .error (.schemaError "missing field error")
            return .error e
          else if tag = "Unknown" then .ok .unknown
          else .error (.schemaError ("unknown variant " ++ tag))
      | some _ => .error (.schemaError "invalid type for variant tag")
  | _ => .error (.schemaError "expected object for StreamEvent")

/-! ## Serializers (from the `Serialize` derives in `types.rs`)

Serde derive emits every field in declaration order under its (possibly
renamed) key.  A field of type `Option T` serializes `None` as `null` unless
it carries `skip_serializing_if = "Option::is_none"`; in `types.rs` only
`ContentBlock.text` and `ContentBlock.source` carry that attribute. -/

/-- Serialization of an `Option<String>` field without a skip attribute. -/
def jsonOfOptStr : Option String → Json
  | none => .null
  | some s => .str s

/-- Serialization of an `Option<Vec<String>>` field without a skip attribute. -/
def jsonOfOptStrList : Option (List String) → Json
  | none => .null
  | some xs => .arr (xs.map .str)

/-- Serialization of an `Option<f64>` field without a skip attribute. -/
def jsonOfOptFloat : Option Rat → Json
  | none => .null
  | some q => .float q

/-- Serialization of an `Option<i32>` field without a skip attribute. -/
def jsonOfOptInt : Option Int → Json
  | none => .null
  | some n => .int n

/-- Serializer derived for `Usage`. -/
def serializeUsage (u : Usage) : Json :=
  .obj [("input_tokens", .int u.input_tokens),
        ("output_tokens", .int u.output_tokens)]

/-- Serializer derived for `ImageSource` (renames `source_type` to `type`). -/
def serializeImageSource (s : ImageSource) : Json :=
  .obj [("type", .str s.source_type),
        ("media_type", .str s.media_type),
        ("data", .str s.data)]

/-- Serializer derived for `ContentBlock`: `content_type` under the key
`type`; `text` and `source` are omitted entirely when `none`
(`skip_serializing_if = "Option::is_none"`), never emitted as `null`. -/
def serializeContentBlock (cb : ContentBlock) : Json :=
  .obj ([("type", .str cb.content_type)]
    ++ (match cb.text with
        | none => []
        | some t => [("text", .str t)])
    ++ (match cb.source with
        | none => []
        | some s => [("source", serializeImageSource s)]))

/-- Serializer derived for `Message`: every field emitted, `object_type`
under the key `type`, optional fields as `null` when `none`. -/
def serializeMessage (m : Message) : Json :=
  .obj [("id", .str m.id),
        ("type", .str m.object_type),
        ("role", .str m.role),
        ("content", .arr (m.content.map serializeContentBlock)),
        ("model", .str m.model),
        ("stop_reason", jsonOfOptStr m.stop_reason),
        ("stop_sequence", jsonOfOptStr m.stop_sequence),
        ("usage", serializeUsage m.usage)]

/-- Serializer derived for `CreateMessageRequest` (lines 11-27): all nine
fields in declaration order; the optional fields carry no
`skip_serializing_if`, so an unset field is emitted as `null`. -/
def serializeCreateMessageRequest (r : CreateMessageRequest) : Json :=
  .obj [("model", .str r.model),
        ("messages", .arr (r.messages.map serializeMessage)),
        ("system", jsonOfOptStr r.system),
        ("max_tokens", .int r.max_tokens),
        ("stop_sequences", jsonOfOptStrList r.stop_sequences),
        ("stream", .bool r.stream),
        ("temperature", jsonOfOptFloat r.temperature),
        ("top_p", jsonOfOptFloat r.top_p),
        ("top_k", jsonOfOptInt r.top_k)]

/-- Serializer derived for `CompleteRequest` (lines 145-163): all five fields
in declaration order; `stop_sequences` carries no `skip_serializing_if`, so an
unset value is emitted as `null`. -/
def serializeCompleteRequest (r : CompleteRequest) : Json :=
  .obj [("prompt", .str r.prompt),
        ("model", .str r.model),
        ("max_tokens_to_sample", .int (r.max_tokens_to_sample : Int)),
        ("stop_sequences", jsonOfOptStrList r.stop_sequences),
        ("stream", .bool r.stream)]

/-! ## Builders (from the `derive_builder::Builder` derives in `types.rs`)

Both request structs carry `#[builder(setter(into, strip_option), default)]`
and derive `Default`.  Under `derive_builder`, the struct-level `default`
makes every unset builder field fall back to its value in the struct's
`Default` instance (field-level `#[builder(default = "...")]` expressions
take precedence), so `build` never returns the uninitialized-field error:
the declared `build_fn(error = "AnthropicError")` conversion is never
exercised.  The derived `Default` for `CreateMessageRequest` gives the empty
string for `model`, the empty vector for `messages`, `0` for `max_tokens`,
`false` for `stream` and `None` for every `Option` field. -/

/-- Builder state for `CreateMessageRequest`: one `Option`-wrapped slot per
field, all starting unset (`derive_builder` mutable pattern; the
`strip_option` setters store `some (some v)` for `Option` fields). -/
structure CreateMessageRequestBuilder where
  model : Option String := none
  messages : Option (List Message) := none
  system : Option (Option String) := none
  max_tokens : Option Int := none
  stop_sequences : Option (Option (List String)) := none
  stream : Option Bool := none
  temperature : Option (Option Rat) := none
  top_p : Option (Option Rat) := none
  top_k : Option (Option Int) := none
deriving DecidableEq, Repr

/-- Generated `build` for `CreateMessageRequestBuilder`: each unset field is
taken from `CreateMessageRequest::default()` (struct-level `builder(default)`);
`stream` additionally carries `#[builder(default = "false")]`, which agrees
with the derived `Default`.  The result type matches the Rust signature
`Result<CreateMessageRequest, AnthropicError>`, though no branch errors. -/
def CreateMessageRequestBuilder.build (b : CreateMessageRequestBuilder) :
    Except AnthropicError CreateMessageRequest :=
  .ok { model := b.model.getD ""
        messages := b.messages.getD []
        system := b.system.getD none
        max_tokens := b.max_tokens.getD 0
        stop_sequences := b.stop_sequences.getD none
        stream := b.stream.getD false
        temperature := b.temperature.getD none
        top_p := b.top_p.getD none
        top_k := b.top_k.getD none }

/-- Builder state for `CompleteRequest`, all slots starting unset. -/
structure CompleteRequestBuilder where
  prompt : Option String := none
  model : Option String := none
  max_tokens_to_sample : Option Nat := none
  stop_sequences : Option (Option (List String)) := none
  stream : Option Bool := none
deriving DecidableEq, Repr

/-- Generated `build` for `CompleteRequestBuilder`: `model` carries the
field-level default expression `DEFAULT_MODEL.to_string()` and `stream` the
field-level default `false`; the remaining unset fields fall back to
`CompleteRequest::default()` (empty string, `0`, `None`). -/
def CompleteRequestBuilder.build (b : CompleteRequestBuilder) :
    Except AnthropicError CompleteRequest :=
  .ok { prompt := b.prompt.getD ""
        model := b.model.getD DEFAULT_MODEL
        max_tokens_to_sample := b.max_tokens_to_sample.getD 0
        stop_sequences := b.stop_sequences.getD none
        stream := b.stream.getD false }

/-! ## Round-trip decoders for the request types

The request structs derive only `Serialize` in `types.rs`; the spec's
round-trip property (section 8) is stated "where the API shape allows". -/

/-- Decode a JSON array of messages (Rust `Vec<Message>`). -/
def decodeMessageList : List Json → Except AnthropicError (List Message)
  | [] => .ok []
  | j :: rest => do
      let m ← decodeMessage j
      let ms ← decodeMessageList rest
      return m :: ms

/-- Modelled from the spec: `CreateMessageRequest` derives no `Deserialize`
in the source, so the spec's serialize-then-deserialize round trip (section 8)
is read back field-wise from the serialized shape, with the same field typing
rules as the response decoders. -/
def decodeCreateMessageRequest (j : Json) :
    Except AnthropicError CreateMessageRequest :=
  match j with
  | .obj fields => do
      let m ← reqString fields "model"
      let msgs ← match lookupField fields "messages" with
        | some (.arr js) => decodeMessageList js
        | some _ => .error (.schemaError "invalid type for field messages")
        | none => .error (.schemaError "missing field messages")
      let sys ← optString fields "system"
      let mt ← reqInt fields "max_tokens"
      let ss ← optStringList fields "stop_sequences"
      let st ← reqBool fields "stream"
      let temp ← optFloat fields "temperature"
      let tp ← optFloat fields "top_p"
      let tk ← optInt fields "top_k"
      return { model := m, messages := msgs, system := sys, max_tokens := mt,
               stop_sequences := ss, stream := st, temperature := temp,
               top_p := tp, top_k := tk }
  | _ => .error (.schemaError "expected object for CreateMessageRequest")

/-- Modelled from the spec: field-wise reading back of the serialized
`CompleteRequest` shape (the source derives no `Deserialize` for it). -/
def decodeCompleteRequest (j : Json) : Except AnthropicError CompleteRequest :=
  match j with
  | .obj fields => do
      let p ← reqString fields "prompt"
      let m ← reqString fields "model"
      let mts ← reqNat fields "max_tokens_to_sample"
      let ss ← optStringList fields "stop_sequences"
      let st ← reqBool fields "stream"
      return { prompt := p, model := m, max_tokens_to_sample := mts,
               stop_sequences := ss, stream := st }
  | _ => .error (.schemaError "expected object for CompleteRequest")

/-! ## Helper lemmas -/

/-- Apply a successful `Except` bind to recover the intermediate value. -/
theorem bindOk {α β : Type} {x : Except AnthropicError α}
    {f : α → Except AnthropicError β} {b : β}
    (h : (x >>= f) = .ok b) : ∃ a, x = .ok a ∧ f a = .ok b := by
  cases x with
  | error e => simp [Bind.bind, Except.bind] at h
  | ok a => exact ⟨a, rfl, by simpa [Bind.bind, Except.bind] using h⟩

/-- A successful `pure` in `Except` pins down its value. -/
theorem pureOk {α : Type} {a b : α}
    (h : (pure a : Except AnthropicError α) = .ok b) : a = b := by
  simpa [pure, Except.pure] using h

/-- The serde tag of each `StreamEvent` variant (the renamed snake_case tags
of lines 84-110; `Unknown` keeps its Rust variant name). -/
def eventTag : StreamEvent → String
  | .messageStart _ => "message_start"
  | .contentBlockStart _ _ => "content_block_start"
  | .contentBlockDelta _ _ => "content_block_delta"
  | .contentBlockStop _ => "content_block_stop"
  | .messageDelta _ => "message_delta"
  | .messageStop => "message_stop"
  | .ping => "ping"
  | .error _ => "error"
  | .unknown => "Unknown"

/-- Decoding inverts serialization for a serialized string list. -/
theorem decodeStringList_map (xs : List String) :
    decodeStringList (xs.map Json.str) = .ok xs := by
  induction xs with
  | nil => rfl
  | cons x rest ih =>
      simp [decodeStringList, ih, Bind.bind, Except.bind, pure, Except.pure]

/-- Decoding inverts serialization for a content block. -/
theorem decodeContentBlock_serialize (cb : ContentBlock) :
    decodeContentBlock (serializeContentBlock cb) = .ok cb := by
  obtain ⟨ct, t, s⟩ := cb
  cases t <;> cases s <;> rfl

/-- Decoding inverts serialization for a list of content blocks. -/
theorem decodeBlockList_map (bs : List ContentBlock) :
    decodeBlockList (bs.map serializeContentBlock) = .ok bs := by
  induction bs with
  | nil => rfl
  | cons b rest ih =>
      simp [decodeBlockList, decodeContentBlock_serialize, ih,
            Bind.bind, Except.bind, pure, Except.pure]

/-- Decoding inverts serialization for a `Message`. -/
theorem decodeMessage_serialize (m : Message) :
    decodeMessage (serializeMessage m) = .ok m := by
  obtain ⟨id, ot, role, content, model, sr, ss, u⟩ := m
  cases sr <;> cases ss <;>
    simp [decodeMessage, serializeMessage, reqString, optString, reqBlocks, reqUsage,
          lookupField, jsonOfOptStr, decodeBlockList_map, decodeUsage, serializeUsage,
          reqInt, Bind.bind, Except.bind, pure, Except.pure]

/-- Decoding inverts serialization for a list of messages. -/
theorem decodeMessageList_map (ms : List Message) :
    decodeMessageList (ms.map serializeMessage) = .ok ms := by
  induction ms with
  | nil => rfl
  | cons m rest ih =>
      simp [decodeMessageList, decodeMessage_serialize, ih,
            Bind.bind, Except.bind, pure, Except.pure]

/-! ## Claims -/

/-- C1 (amended): under the struct-level `builder(default)` of
`CreateMessageRequest`, finalizing never yields a `ValidationError`: a builder
on which `model` was never set still builds successfully, with `model` falling
back to the derived `Default` value (the empty string, with empty `messages`
and `max_tokens = 0` likewise defaulted); and building with `model`,
`messages` and `max_tokens` set and all else defaulted succeeds with
`stream = false`. -/
theorem c1_build_with_defaults :
    (∀ b : CreateMessageRequestBuilder, b.model = none →
      ∃ r, b.build = .ok r ∧ r.model = "") ∧
    (∀ (m : String) (msgs : List Message) (mt : Int),
      CreateMessageRequestBuilder.build
        { model := some m, messages := some msgs, max_tokens := some mt } =
        .ok { model := m, messages := msgs, system := none, max_tokens := mt,
              stop_sequences := none, stream := false, temperature := none,
              top_p := none, top_k := none }) := by
  constructor
  · intro b h
    exact ⟨_, rfl, by simp [CreateMessageRequestBuilder.build, h]⟩
  · intro m msgs mt
    rfl

/-- C1 witness: the all-unset builder builds successfully with the default
(empty) model. -/
theorem c1_build_with_defaults_witness :
    ∃ r, CreateMessageRequestBuilder.build {} = .ok r ∧ r.model = "" :=
  c1_build_with_defaults.1 {} rfl

/-- C1 counterexample: finalizing the builder on which no field (in particular
`model`) was ever set does not fail with a `ValidationError`; it succeeds and
returns the fully defaulted request. -/
theorem c1_counterexample :
    CreateMessageRequestBuilder.build {} =
      .ok { model := "", messages := [], system := none, max_tokens := 0,
            stop_sequences := none, stream := false, temperature := none,
            top_p := none, top_k := none } := rfl

/-- C2: contrary to the claim (and to the source's own comment `Fallback for
unknown events` on the `Unknown` variant), the internally tagged serde decoder
of `StreamEvent` carries no `serde(other)` attribute, so a payload whose tag
is not among the nine variant tags is rejected with an unknown-variant error
instead of decoding to `Unknown`: the payload with tag `frobnicate` fails. -/
theorem c2_unrecognized_tag_rejected :
    decodeStreamEvent (.obj [("type", .str "frobnicate")]) =
      .error (.schemaError "unknown variant frobnicate") := rfl

/-- C3: decoding `Content` resolves structurally: a JSON string decodes to
`text` of that string, a JSON array of valid content blocks decodes to
`blocks` of those blocks, and any other JSON shape fails with a
`schemaError`; in particular the number 42 fails. -/
theorem c3_content_structural_decoding :
    (∀ s : String, decodeContent (.str s) = .ok (.text s)) ∧
    (∀ (js : List Json) (bs : List ContentBlock),
      decodeBlockList js = .ok bs → decodeContent (.arr js) = .ok (.blocks bs)) ∧
    (∀ j : Json, (∀ s, j ≠ .str s) → (∀ js, j ≠ .arr js) →
      ∃ msg, decodeContent j = .error (.schemaError msg)) ∧
    decodeContent (.int 42) =
      .error (.schemaError "data did not match any variant of Content") := by
  refine ⟨fun s => rfl, ?_, ?_, rfl⟩
  · intro js bs h
    simp [decodeContent, h, Bind.bind, Except.bind, pure, Except.pure]
  · intro j h1 h2
    rcases j with _ | b | n | q | s | js | fl
    · exact ⟨_, rfl⟩
    · exact ⟨_, rfl⟩
    · exact ⟨_, rfl⟩
    · exact ⟨_, rfl⟩
    · exact absurd rfl (h1 s)
    · exact absurd rfl (h2 js)
    · exact ⟨_, rfl⟩

/-- C3 witness: a one-element array of a valid text block decodes to
`blocks`. -/
theorem c3_content_structural_decoding_witness :
    decodeContent (.arr [.obj [("type", .str "text"), ("text", .str "hi")]]) =
      .ok (.blocks [{ content_type := "text", text := some "hi", source := none }]) :=
  c3_content_structural_decoding.2.1
    [.obj [("type", .str "text"), ("text", .str "hi")]]
    [{ content_type := "text", text := some "hi", source := none }] rfl

/-- C4: for every payload whose tag is one of the eight recognized strings,
a successful decode dispatches to the variant carrying exactly that tag; in
particular the bare `ping` payload decodes to the `ping` variant, and a
payload under the recognized tag `content_block_stop` that lacks its required
`index` field fails with a `schemaError`. -/
theorem c4_recognized_tag_dispatch :
    (∀ (fields : List (String × Json)) (t : String) (e : StreamEvent),
      lookupField fields "type" = some (.str t) → t ∈ recognizedTags →
      decodeStreamEvent (.obj fields) = .ok e → eventTag e = t) ∧
    decodeStreamEvent (.obj [("type", .str "ping")]) = .ok .ping ∧
    decodeStreamEvent (.obj [("type", .str "content_block_stop")]) =
      .error (.schemaError "missing field index") := by
  refine ⟨?_, rfl, rfl⟩
  intro fields t e h1 h2 h3
  simp only [decodeStreamEvent, h1] at h3
  simp only [recognizedTags, List.mem_cons] at h2
  rcases h2 with rfl | rfl | rfl | rfl | rfl | rfl | rfl | rfl | h0
  · simp only [String.reduceEq, reduceIte] at h3
    split at h3
    · obtain ⟨m, hm, h3⟩ := bindOk h3
      rw [← pureOk h3]; rfl
    · obtain ⟨m, hm, h3⟩ := bindOk h3
      simp at hm
  · simp only [String.reduceEq, reduceIte] at h3
    obtain ⟨i, hi, h3⟩ := bindOk h3
    split at h3
    · obtain ⟨cb, hcb, h3⟩ := bindOk h3
      rw [← pureOk h3]; rfl
    · obtain ⟨cb, hcb, h3⟩ := bindOk h3
      simp at hcb
  · simp only [String.reduceEq, reduceIte] at h3
    obtain ⟨i, hi, h3⟩ := bindOk h3
    split at h3
    · obtain ⟨d, hd, h3⟩ := bindOk h3
      rw [← pureOk h3]; rfl
    · obtain ⟨d, hd, h3⟩ := bindOk h3
      simp at hd
  · simp only [String.reduceEq, reduceIte] at h3
    obtain ⟨i, hi, h3⟩ := bindOk h3
    rw [← pureOk h3]; rfl
  · simp only [String.reduceEq, reduceIte] at h3
    split at h3
    · obtain ⟨d, hd, h3⟩ := bindOk h3
      rw [← pureOk h3]; rfl
    · obtain ⟨d, hd, h3⟩ := bindOk h3
      simp at hd
  · simp only [String.reduceEq, reduceIte] at h3
    cases h3; rfl
  · simp only [String.reduceEq, reduceIte] at h3
    cases h3; rfl
  · simp only [String.reduceEq, reduceIte] at h3
    split at h3
    · obtain ⟨d, hd, h3⟩ := bindOk h3
      rw [← pureOk h3]; rfl
    · obtain ⟨d, hd, h3⟩ := bindOk h3
      simp at hd
  · exact absurd h0 (List.not_mem_nil t)

/-- C4 witness: the `ping` payload exercises the dispatch property. -/
theorem c4_recognized_tag_dispatch_witness : eventTag .ping = "ping" :=
  c4_recognized_tag_dispatch.1 [("type", .str "ping")] "ping" .ping rfl
    (by simp [recognizedTags]) rfl

/-- C5: a `CompleteRequestBuilder` with no `model` set builds successfully
with `model` equal to the fixed default constant `DEFAULT_MODEL` (the
field-level `builder(default)` expression), and for both builders an unset
`stream` finalizes to `false`. -/
theorem c5_default_model_and_stream :
    (∀ b : CompleteRequestBuilder, b.model = none →
      ∃ r, b.build = .ok r ∧ r.model = DEFAULT_MODEL) ∧
    (∀ b : CompleteRequestBuilder, b.stream = none →
      ∃ r, b.build = .ok r ∧ r.stream = false) ∧
    (∀ b : CreateMessageRequestBuilder, b.stream = none →
      ∃ r, b.build = .ok r ∧ r.stream = false) := by
  refine ⟨?_, ?_, ?_⟩ <;> intro b h <;>
    exact ⟨_, rfl, by simp [CompleteRequestBuilder.build,
      CreateMessageRequestBuilder.build, h]⟩

/-- C5 witness: the all-unset `CompleteRequestBuilder` builds with the
default model constant. -/
theorem c5_default_model_and_stream_witness :
    ∃ r, CompleteRequestBuilder.build {} = .ok r ∧ r.model = DEFAULT_MODEL :=
  c5_default_model_and_stream.1 {} rfl

/-- C6: serializing a `ContentBlock` whose `text` and `source` are both
`none` omits both keys entirely (the emitted object holds only the `type`
key), rather than emitting them with a `null` value. -/
theorem c6_contentblock_omits_unset_keys (cb : ContentBlock)
    (ht : cb.text = none) (hs : cb.source = none) :
    serializeContentBlock cb = .obj [("type", .str cb.content_type)] ∧
    lookupField [("type", .str cb.content_type)] "text" = none ∧
    lookupField [("type", .str cb.content_type)] "source" = none := by
  refine ⟨by simp [serializeContentBlock, ht, hs], rfl, rfl⟩

/-- C6 witness: a bare text-typed block with both options unset serializes to
the one-key object. -/
theorem c6_contentblock_omits_unset_keys_witness :
    serializeContentBlock { content_type := "text", text := none, source := none } =
      .obj [("type", .str "text")] ∧
    lookupField [("type", .str "text")] "text" = none ∧
    lookupField [("type", .str "text")] "source" = none :=
  c6_contentblock_omits_unset_keys
    { content_type := "text", text := none, source := none } rfl rfl

/-- C7 (amended): serialize-then-decode (reading the serialized shape back
field-wise) preserves every field of both request types; but unset optional
fields of the request structs are serialized as `null` under their keys, not
omitted, since only `ContentBlock.text` and `ContentBlock.source` carry
`skip_serializing_if` in the source. -/
theorem c7_request_roundtrip :
    (∀ r : CreateMessageRequest,
      decodeCreateMessageRequest (serializeCreateMessageRequest r) = .ok r) ∧
    (∀ r : CompleteRequest,
      decodeCompleteRequest (serializeCompleteRequest r) = .ok r) ∧
    (∀ r : CreateMessageRequest, r.system = none →
      ∃ fields, serializeCreateMessageRequest r = .obj fields ∧
        lookupField fields "system" = some .null) := by
  refine ⟨?_, ?_, ?_⟩
  · intro r
    obtain ⟨m, msgs, sys, mt, ss, st, temp, tp, tk⟩ := r
    cases sys <;> cases ss <;> cases temp <;> cases tp <;> cases tk <;>
      simp [decodeCreateMessageRequest, serializeCreateMessageRequest, reqString,
            reqInt, reqBool, optString, optStringList, optFloat, optInt, lookupField,
            jsonOfOptStr, jsonOfOptStrList, jsonOfOptFloat, jsonOfOptInt,
            decodeMessageList_map, decodeStringList_map,
            Bind.bind, Except.bind, pure, Except.pure]
  · intro r
    obtain ⟨p, m, mts, ss, st⟩ := r
    have hnn : ¬((mts : Int) < 0) := by omega
    cases ss <;>
      simp [decodeCompleteRequest, serializeCompleteRequest, reqString, reqNat,
            reqBool, optStringList, lookupField, jsonOfOptStrList,
            decodeStringList_map, hnn, Bind.bind, Except.bind, pure, Except.pure,
            Int.toNat_natCast]
  · intro r h
    exact ⟨_, rfl, by simp [lookupField, jsonOfOptStr, h]⟩

/-- C7 witness: a request with `system` unset serializes with the `system`
key bound to `null`. -/
theorem c7_request_roundtrip_witness :
    ∃ fields, serializeCreateMessageRequest
      { model := "m", messages := [], system := none, max_tokens := 5,
        stop_sequences := none, stream := false, temperature := none,
        top_p := none, top_k := none } = .obj fields ∧
      lookupField fields "system" = some .null :=
  c7_request_roundtrip.2.2
    { model := "m", messages := [], system := none, max_tokens := 5,
      stop_sequences := none, stream := false, temperature := none,
      top_p := none, top_k := none } rfl

/-- C7 counterexample: contrary to the claim, the unset optional fields of a
`CreateMessageRequest` are not absent from the serialized form: serializing a
request with `system`, `stop_sequences`, `temperature`, `top_p` and `top_k`
unset emits each of those keys with a `null` value. -/
theorem c7_counterexample :
    serializeCreateMessageRequest
      { model := "m", messages := [], system := none, max_tokens := 5,
        stop_sequences := none, stream := false, temperature := none,
        top_p := none, top_k := none } =
    .obj [("model", .str "m"), ("messages", .arr []), ("system", .null),
          ("max_tokens", .int 5), ("stop_sequences", .null),
          ("stream", .bool false), ("temperature", .null), ("top_p", .null),
          ("top_k", .null)] := rfl

/-- C8: decoding a legacy completion response object with a `completion`
string yields that string, with `stop_reason = none` when the field is
absent, `some maxTokens` for the string `max_tokens`, and
`some stopSequence` for the string `stop_sequence`. -/
theorem c8_complete_response_decoding (fields : List (String × Json))
    (s : String) (hc : lookupField fields "completion" = some (.str s)) :
    (lookupField fields "stop_reason" = none →
      decodeCompleteResponse (.obj fields) =
        .ok { completion := s, stop_reason := none }) ∧
    (lookupField fields "stop_reason" = some (.str "max_tokens") →
      decodeCompleteResponse (.obj fields) =
        .ok { completion := s, stop_reason := some .maxTokens }) ∧
    (lookupField fields "stop_reason" = some (.str "stop_sequence") →
      decodeCompleteResponse (.obj fields) =
        .ok { completion := s, stop_reason := some .stopSequence }) := by
  refine ⟨?_, ?_, ?_⟩ <;> intro h <;>
    simp [decodeCompleteResponse, reqString, optStopReason, decodeStopReason,
          hc, h, Bind.bind, Except.bind, pure, Except.pure]

/-- C8 witness: a concrete payload with `stop_reason` equal to `max_tokens`. -/
theorem c8_complete_response_decoding_witness :
    decodeCompleteResponse
      (.obj [("completion", .str "done"), ("stop_reason", .str "max_tokens")]) =
      .ok { completion := "done", stop_reason := some .maxTokens } :=
  (c8_complete_response_decoding
    [("completion", .str "done"), ("stop_reason", .str "max_tokens")]
    "done" rfl).2.1 rfl

/-- C9: the two record types disagree on the optionality of `stop_reason`:
decoding a `CreateMessageResponse` from an object lacking `stop_reason`
always fails, while a `Message` decoded from an object lacking `stop_reason`
carries `stop_reason = none` whenever it decodes at all. -/
theorem c9_stop_reason_required_vs_optional (fields : List (String × Json))
    (h : lookupField fields "stop_reason" = none) :
    (∃ err, decodeCreateMessageResponse (.obj fields) = .error err) ∧
    (∀ m, decodeMessage (.obj fields) = .ok m → m.stop_reason = none) := by
  have hsr : reqString fields "stop_reason" =
      .error (.schemaError ("missing field " ++ "stop_reason")) := by
    simp [reqString, h]
  have hopt : optString fields "stop_reason" = .ok none := by
    simp [optString, h]
  constructor
  · cases hd : decodeCreateMessageResponse (.obj fields) with
    | error e => exact ⟨e, rfl⟩
    | ok r =>
      exfalso
      simp only [decodeCreateMessageResponse] at hd
      obtain ⟨a1, h1, hd⟩ := bindOk hd
      obtain ⟨a2, h2, hd⟩ := bindOk hd
      obtain ⟨a3, h3, hd⟩ := bindOk hd
      obtain ⟨a4, h4, hd⟩ := bindOk hd
      obtain ⟨a5, h5, hd⟩ := bindOk hd
      obtain ⟨a6, h6, hd⟩ := bindOk hd
      rw [hsr] at h6
      exact absurd h6 (by simp)
  · intro m hm
    simp only [decodeMessage] at hm
    obtain ⟨a1, h1, hm⟩ := bindOk hm
    obtain ⟨a2, h2, hm⟩ := bindOk hm
    obtain ⟨a3, h3, hm⟩ := bindOk hm
    obtain ⟨a4, h4, hm⟩ := bindOk hm
    obtain ⟨a5, h5, hm⟩ := bindOk hm
    obtain ⟨a6, h6, hm⟩ := bindOk hm
    obtain ⟨a7, h7, hm⟩ := bindOk hm
    obtain ⟨a8, h8, hm⟩ := bindOk hm
    rw [hopt] at h6
    have ha6 : a6 = none := by
      have h9 := h6
      simp at h9
      exact h9.symm
    have h10 := pureOk hm
    rw [← h10, ha6]

/-- C9 witness: a complete message object without `stop_reason` decodes as a
`Message` with `stop_reason = none` and is rejected as a
`CreateMessageResponse`. -/
theorem c9_stop_reason_required_vs_optional_witness :
    (∃ err, decodeCreateMessageResponse
      (.obj [("id", .str "m1"), ("type", .str "message"),
             ("role", .str "assistant"), ("content", .arr []),
             ("model", .str "c"),
             ("usage", .obj [("input_tokens", .int 1),
                             ("output_tokens", .int 2)])]) = .error err) ∧
    (∀ m, decodeMessage
      (.obj [("id", .str "m1"), ("type", .str "message"),
             ("role", .str "assistant"), ("content", .arr []),
             ("model", .str "c"),
             ("usage", .obj [("input_tokens", .int 1),
                             ("output_tokens", .int 2)])]) = .ok m →
      m.stop_reason = none) :=
  c9_stop_reason_required_vs_optional
    [("id", .str "m1"), ("type", .str "message"), ("role", .str "assistant"),
     ("content", .arr []), ("model", .str "c"),
     ("usage", .obj [("input_tokens", .int 1), ("output_tokens", .int 2)])] rfl

/-- C10: a payload lacking the `type` discriminator entirely fails to decode
with a missing-field error; the absence of the tag does not fall through to
the `unknown` variant. -/
theorem c10_missing_tag_fails (fields : List (String × Json))
    (h : lookupField fields "type" = none) :
    decodeStreamEvent (.obj fields) =
      .error (.schemaError "missing field type") := by
  simp [decodeStreamEvent, h]

/-- C10 witness: an object with only a `message` key is rejected. -/
theorem c10_missing_tag_fails_witness :
    decodeStreamEvent (.obj [("message", .str "hi")]) =
      .error (.schemaError "missing field type") :=
  c10_missing_tag_fails [("message", .str "hi")] rfl
